import Mathlib

/-!
Shallow embedding of the multi-factor-authentication system
(`src/storage/models.py`, `src/storage/file_repository.py`,
`src/storage/schema_migration.py`, `src/security/crypto.py`,
`src/security/face_recognizer.py`, `src/core/auth_service.py`,
`src/core/logging_service.py`).

Conventions of the embedding:
* Python strings are Lean `String`; bytes are `List Nat`.
* Python floats used for the face distance and threshold are `ℚ`
  (the code only compares and does exact arithmetic on them here).
* Randomness (fresh salts), the PBKDF2 derivation, the camera capture
  and the Face++ compare call are inputs of an explicit environment
  record `Env`: each operation is a pure function of the environment,
  the repository state and its arguments.
* Exceptions are `Except`; functions whose Python callers catch all
  exceptions and stringify them do so explicitly.
* Audit-log writes (`logging_service.log_auth_event`) and camera
  invocations are recorded in an event list returned next to the result.
-/

/-- Python truthiness/emptiness helper: `str.strip()`.  Mirrors
CPython semantics for the whitespace handled by `Char.isWhitespace`. -/
def pyStripList (l : List Char) : List Char :=
  ((l.dropWhile Char.isWhitespace).reverse.dropWhile Char.isWhitespace).reverse

/-- Python `username.strip()` on Lean strings. -/
def pyStrip (s : String) : String :=
  String.mk (pyStripList s.toList)

/-- Model of the `storage/models.py` `User` dataclass (field for field; `salt` and
`password_hash` are the base64 strings the code stores). -/
structure User where
  username : String
  salt : String
  password_hash : String
  face_enabled : Bool := false
  face_embedding : Option (List String) := none
  face_image_data : Option (List Nat) := none
  id : Option Nat := none
deriving DecidableEq

/-- Model of the `storage/models.py` `SystemConfig` dataclass with its defaults. -/
structure SystemConfig where
  force_mfa : Bool := true
  face_threshold : ℚ := 1/2
  hash_algorithm : String := "PBKDF2-HMAC-SHA256"
  encryption_algorithm : String := "AES-256-GCM"
  pbkdf2_iterations : Nat := 200000
deriving DecidableEq

/-- Model of the `storage/models.py` `DataModel` dataclass. -/
structure DataModel where
  version : Nat := 1
  users : List User := []
  config : SystemConfig := {}
deriving DecidableEq

/-- In-memory state of `FileRepository` (`_data_model`, `_next_user_id`).
The `_data_key` and the backing file are modelled separately where a
claim needs them; `save_data`'s file write has no effect on this state. -/
structure RepoState where
  dataModel : Option DataModel := none
  nextUserId : Nat := 1
deriving DecidableEq

/-- Model of `FileRepository.get_user_by_username`: first user with that exact
(case-sensitive) username, `None` when the model is absent. -/
def get_user_by_username (st : RepoState) (username : String) : Option User :=
  match st.dataModel with
  | none => none
  | some m => m.users.find? (fun u => u.username == username)

/-- Model of `FileRepository.get_all_users` (defensive copy in Python; pure here). -/
def get_all_users (st : RepoState) : List User :=
  match st.dataModel with
  | none => []
  | some m => m.users

/-- Model of `FileRepository.get_system_config`: defaults when the model is absent. -/
def get_system_config (st : RepoState) : SystemConfig :=
  match st.dataModel with
  | none => {}
  | some m => m.config

/-- Model of `FileRepository.save_user`.  Returns the new state, the stored user
(with its assigned id) and the freshly issued id (`none` when the
caller supplied an id, mirroring the `if user.id is None` guard).
Raised `ValueError`s become `Except.error` with the Python message. -/
def save_user (st : RepoState) (user : User) :
    Except String (RepoState × User × Option Nat) :=
  match st.dataModel with
  | none => Except.error ("数据模型未初始化")
  | some m =>
    if (m.users.find? (fun u => u.username == user.username)).isSome then
      Except.error ("用户名 \x27" ++ user.username ++ "\x27 已存在")
    else
      match user.id with
      | none =>
        let stored := { user with id := some st.nextUserId }
        Except.ok
          ({ dataModel := some { m with users := m.users ++ [stored] },
             nextUserId := st.nextUserId + 1 },
           stored, some st.nextUserId)
      | some _ =>
        Except.ok
          ({ st with dataModel := some { m with users := m.users ++ [user] } },
           user, none)

/-- Replace the first user with the same username (the loop body of
`FileRepository.update_user`); `none` when no user matches. -/
def replaceFirstUser : List User → User → Option (List User)
  | [], _ => none
  | x :: rest, u =>
    if x.username == u.username then some (u :: rest)
    else (replaceFirstUser rest u).map (fun l => x :: l)

/-- Model of `FileRepository.update_user`. -/
def update_user (st : RepoState) (user : User) : Except String RepoState :=
  match st.dataModel with
  | none => Except.error ("数据模型未初始化")
  | some m =>
    match replaceFirstUser m.users user with
    | some l => Except.ok { st with dataModel := some { m with users := l } }
    | none => Except.error ("用户 \x27" ++ user.username ++ "\x27 不存在")

/-- Remove the first user with the given username (the loop body of
`FileRepository.delete_user`); `none` when no user matches. -/
def removeFirstUser : List User → String → Option (List User)
  | [], _ => none
  | x :: rest, name =>
    if x.username == name then some rest
    else (removeFirstUser rest name).map (fun l => x :: l)

/-- Model of `FileRepository.delete_user`. -/
def delete_user (st : RepoState) (username : String) : Except String RepoState :=
  match st.dataModel with
  | none => Except.error ("数据模型未初始化")
  | some m =>
    match removeFirstUser m.users username with
    | some l => Except.ok { st with dataModel := some { m with users := l } }
    | none => Except.error ("用户 \x27" ++ username ++ "\x27 不存在")

/-- Audit-log event kinds of `core/logging_service.AuthEvent`, together
with the literal `"MFA_SUCCESS"` string that `authenticate_user` passes
to `log_auth_event` directly. -/
inductive LogKind
  | SUCCESS
  | FAIL_WRONG_PASSWORD
  | FAIL_USER_NOT_FOUND
  | FAIL_FACE_MISMATCH
  | FAIL_DATA_INTEGRITY
  | PASSWORD_CHANGED
  | USER_REGISTERED
  | MFA_SUCCESS
deriving DecidableEq

/-- Observable side effects of an authentication-service call:
an audit-log line (`log_auth_event`) or a camera/extraction invocation
(`capture_and_extract_face`). -/
inductive Event
  | log (username : String) (kind : LogKind) (reason : String)
  | faceCapture
deriving DecidableEq

/-- Model of `core/auth_service.AuthResult`. -/
structure AuthResult where
  success : Bool
  message : String
  user : Option User := none
deriving DecidableEq

/-- Environment of one authentication-service call: the deterministic
PBKDF2 derivation (as a function of password and base64 salt, composing
the base64 decode/encode done at every call site of
`derive_key_from_password`), the fresh salt `generate_salt` would
return, the `CV2_AVAILABLE` / `FACEPP_AVAILABLE` flags of
`security/face_recognizer.py`, the outcome of
`capture_and_extract_face` (`Except.error` models a raised
`FaceRecognitionError`) and the outcome of `compare_faces_facepp`
(the confidence; `Except.error` models a raised exception from the
Face++ service call). -/
structure Env where
  kdf : String → String → String
  newSalt : String
  cv2Available : Bool
  faceppAvailable : Bool
  capture : Except String (List String)
  compare : Except String ℚ

/-- Model of `face_recognizer.is_face_recognition_available`. -/
def is_face_recognition_available (env : Env) : Bool × String :=
  if !env.cv2Available then (false, "OpenCV not installed")
  else if !env.faceppAvailable then (false, "Face++ API not configured or unavailable")
  else (true, "Face++ face recognition features available")

/-- Model of `face_recognizer.capture_and_extract_face` (camera capture plus
Face++ extraction, collapsed into the environment's oracle). -/
def capture_and_extract_face (env : Env) : Except String (List String) :=
  env.capture

/-- Model of `face_recognizer.compute_distance`.  The stored "embedding" is a
tagged list `["FACEPP_IMAGE", hex]`; entries are strings in this model,
so the Python `isinstance(…, str)` checks are identically true.  On a
Face++ service exception the code returns distance `1.0` (the
`except Exception: return 1.0` branch); format errors raise
`ValueError` (`Except.error`). -/
def compute_distance (env : Env) (vec1 vec2 : List String) : Except String ℚ :=
  if vec1.length == 2 && vec2.length == 2 &&
      vec1.headD ("") == "FACEPP_IMAGE" && vec2.headD ("") == "FACEPP_IMAGE" then
    if env.faceppAvailable then
      match env.compare with
      | Except.ok confidence => Except.ok ((100 - confidence) / 100)
      | Except.error _ => Except.ok 1
    else Except.error ("Face++ image data provided but Face++ not available")
  else Except.error ("Invalid face data format: only Face++ image data is supported")

/-- Python truthiness of `user.face_embedding` (`None` and `[]` are falsy). -/
def faceTruthy : Option (List String) → Bool
  | none => false
  | some l => !l.isEmpty

/-- Model of `auth_service.authenticate_password_only`.  Returns the result and
the audit-log events written during the call. -/
def authenticate_password_only (env : Env) (st : RepoState)
    (username password : String) : AuthResult × List Event :=
  if username == "" || password == "" then
    ({ success := false, message := "用户名和密码不能为空" }, [])
  else
    let uname := pyStrip username
    match get_user_by_username st uname with
    | none =>
      ({ success := false, message := "用户名或密码错误" },
       [Event.log uname LogKind.FAIL_USER_NOT_FOUND ("用户不存在")])
    | some user =>
      if env.kdf password user.salt != user.password_hash then
        ({ success := false, message := "用户名或密码错误" },
         [Event.log uname LogKind.FAIL_WRONG_PASSWORD ("口令错误")])
      else
        ({ success := true, message := "用户 \x27" ++ uname ++ "\x27 登录成功",
           user := some user },
         [Event.log uname LogKind.SUCCESS ("登录成功")])

/-- Model of `auth_service.register_user`.  `env.newSalt` is the base64 of the
salt `generate_salt(SALT_LENGTH)` returns on this call.  The
`except Exception` wrapper turns a `save_user` `ValueError` into a
failure result, leaving the state unchanged (the Python raise happens
before any mutation). -/
def register_user (env : Env) (st : RepoState) (username password : String) :
    (AuthResult × List Event) × RepoState :=
  if username == "" || pyStrip username == "" then
    (({ success := false, message := "用户名不能为空" }, []), st)
  else if password.length < 6 then
    (({ success := false, message := "密码长度至少6位" }, []), st)
  else
    let uname := pyStrip username
    match get_user_by_username st uname with
    | some _ =>
      (({ success := false, message := "用户名 \x27" ++ uname ++ "\x27 已存在" }, []), st)
    | none =>
      let user : User :=
        { username := uname, salt := env.newSalt,
          password_hash := env.kdf password env.newSalt }
      match save_user st user with
      | Except.ok (st2, stored, _) =>
        (({ success := true, message := "用户 \x27" ++ uname ++ "\x27 注册成功",
            user := some stored },
          [Event.log uname LogKind.USER_REGISTERED ("用户注册成功")]), st2)
      | Except.error e =>
        (({ success := false, message := "注册失败: " ++ e }, []), st)

/-- Model of `auth_service.authenticate_user` (the two-factor login).  Events
are the audit lines plus a `faceCapture` marker at the point where
`capture_and_extract_face` is invoked. -/
def authenticate_user (env : Env) (st : RepoState)
    (username password : String) : AuthResult × List Event :=
  let pr := authenticate_password_only env st username password
  if !pr.1.success then pr
  else
    match pr.1.user with
    | none => pr
    | some user =>
      let config := get_system_config st
      if !config.force_mfa then pr
      else if !(user.face_enabled && faceTruthy user.face_embedding) then
        ({ success := false, message := "系统要求双因素认证，但用户未录入人脸" }, pr.2)
      else
        let avail := is_face_recognition_available env
        if !avail.1 then
          ({ success := false, message := "人脸识别不可用: " ++ avail.2 }, pr.2)
        else
          match capture_and_extract_face env with
          | Except.error e =>
            ({ success := false, message := "人脸采集失败: " ++ e },
             pr.2 ++ [Event.faceCapture])
          | Except.ok current =>
            match compute_distance env (user.face_embedding.getD []) current with
            | Except.error e =>
              ({ success := false, message := "认证失败: " ++ e },
               pr.2 ++ [Event.faceCapture])
            | Except.ok distance =>
              let threshold := config.face_threshold
              if distance ≤ threshold then
                ({ success := true,
                   message := "用户 \x27" ++ username ++ "\x27 双因素认证成功",
                   user := some user },
                 pr.2 ++ [Event.faceCapture,
                   Event.log username LogKind.MFA_SUCCESS
                     ("双因素认证成功 (距离=" ++ toString distance ++ ")")])
              else
                ({ success := false,
                   message := "人脸验证失败 (距离=" ++ toString distance ++ " > "
                     ++ toString threshold ++ ")" },
                 pr.2 ++ [Event.faceCapture,
                   Event.log username LogKind.FAIL_FACE_MISMATCH ("人脸比对失败")])

/-- Model of `auth_service.verify_user_face_for_password_change` (the second,
surviving definition in the file; the username is used unstripped). -/
def verify_user_face_for_password_change (env : Env) (st : RepoState)
    (username : String) : AuthResult × List Event :=
  match get_user_by_username st username with
  | none => ({ success := false, message := "用户不存在" }, [])
  | some user =>
    if !(user.face_enabled && faceTruthy user.face_embedding) then
      ({ success := false, message := "用户未启用人脸识别功能" }, [])
    else
      let avail := is_face_recognition_available env
      if !avail.1 then
        ({ success := false, message := "人脸识别不可用: " ++ avail.2 }, [])
      else
        match capture_and_extract_face env with
        | Except.error e =>
          ({ success := false, message := "人脸采集失败: " ++ e }, [Event.faceCapture])
        | Except.ok current =>
          let threshold := (get_system_config st).face_threshold
          match compute_distance env (user.face_embedding.getD []) current with
          | Except.error e =>
            ({ success := false, message := "人脸验证失败: " ++ e }, [Event.faceCapture])
          | Except.ok distance =>
            if distance ≤ threshold then
              ({ success := true,
                 message := "用户 \x27" ++ username ++ "\x27 人脸验证通过",
                 user := some user }, [Event.faceCapture])
            else
              ({ success := false,
                 message := "人脸验证失败 (距离=" ++ toString distance ++ " > "
                   ++ toString threshold ++ ")" }, [Event.faceCapture])

/-- Model of `auth_service.change_password`.  The old password is verified
through `authenticate_password_only` (whose audit-log writes are
real); no face-related step appears anywhere in this function. -/
def change_password (env : Env) (st : RepoState)
    (username old_password new_password : String) :
    (AuthResult × List Event) × RepoState :=
  if username == "" || old_password == "" || new_password == "" then
    (({ success := false, message := "所有字段都不能为空" }, []), st)
  else if new_password.length < 6 then
    (({ success := false, message := "新密码长度至少6位" }, []), st)
  else if old_password == new_password then
    (({ success := false, message := "新密码不能与旧密码相同" }, []), st)
  else
    let uname := pyStrip username
    let pr := authenticate_password_only env st uname old_password
    if !pr.1.success then
      (({ success := false, message := "旧密码验证失败" }, pr.2), st)
    else
      match pr.1.user with
      | none => (({ success := false, message := "旧密码验证失败" }, pr.2), st)
      | some user =>
        let user2 : User :=
          { user with salt := env.newSalt
                      password_hash := env.kdf new_password env.newSalt }
        match update_user st user2 with
        | Except.ok st2 =>
          (({ success := true, message := "用户 \x27" ++ uname ++ "\x27 密码修改成功" },
            pr.2 ++ [Event.log uname LogKind.PASSWORD_CHANGED ("密码已修改")]), st2)
        | Except.error e =>
          (({ success := false, message := "修改密码失败: " ++ e }, pr.2), st)

/-- Modelled from the spec: the external `cryptography` library's
AES-GCM primitive (§4.2 AuthenticatedCipher) is not part of this
repository; it is modelled generically as counter-mode keystream XOR
plus a deterministic tag over (key, nonce, ciphertext, aad).  `ks i`
is the i-th keystream byte for the already-keyed cipher. -/
def ctrXor (ks : Nat → Nat) : Nat → List Nat → List Nat
  | _, [] => []
  | i, b :: bs => (b ^^^ ks i) :: ctrXor ks (i + 1) bs

/-- Errors of `crypto.encrypt_aes_gcm` / `crypto.decrypt_aes_gcm`:
argument `ValueError`s and the library's `InvalidTag`. -/
inductive CryptoErr
  | valueError (msg : String)
  | invalidTag
deriving DecidableEq

/-- Model of `security/crypto.encrypt_aes_gcm`, parameterised by the keystream
`prf key iv i` and the tag function `mac key iv ciphertext aad` of the
underlying AEAD (see `ctrXor`).  The random nonce `os.urandom(12)` is
the explicit `iv` argument.  Returns `(iv, ciphertext, tag)`. -/
def encrypt_aes_gcm (prf : List Nat → List Nat → Nat → Nat)
    (mac : List Nat → List Nat → List Nat → List Nat → List Nat)
    (key iv plaintext aad : List Nat) :
    Except CryptoErr (List Nat × List Nat × List Nat) :=
  if key.length ≠ 32 then
    Except.error (CryptoErr.valueError ("密钥长度必须为32字节（AES-256）"))
  else
    let ciphertext := ctrXor (prf key iv) 0 plaintext
    Except.ok (iv, ciphertext, mac key iv ciphertext aad)

/-- Model of `security/crypto.decrypt_aes_gcm` over the same AEAD model:
length checks, then authenticity check before any plaintext is
produced (fail closed with `InvalidTag`). -/
def decrypt_aes_gcm (prf : List Nat → List Nat → Nat → Nat)
    (mac : List Nat → List Nat → List Nat → List Nat → List Nat)
    (key iv ciphertext tag aad : List Nat) :
    Except CryptoErr (List Nat) :=
  if key.length ≠ 32 then
    Except.error (CryptoErr.valueError ("密钥长度必须为32字节（AES-256）"))
  else if iv.length ≠ 12 then
    Except.error (CryptoErr.valueError ("IV长度必须为12字节"))
  else if tag.length ≠ 16 then
    Except.error (CryptoErr.valueError ("Tag长度必须为16字节"))
  else if mac key iv ciphertext aad = tag then
    Except.ok (ctrXor (prf key iv) 0 ciphertext)
  else
    Except.error CryptoErr.invalidTag

/-- The decoded JSON record seen by `SchemaMigration.migrate`:
its `version` key (`none` models an absent key, read through
`data.get('version', 1)`) plus the rest of the dictionary, which
`migrate` never touches. -/
structure RawRecord where
  version : Option Nat
  fields : List (String × String)
deriving DecidableEq

/-- Model of `schema_migration.SchemaMigration.CURRENT_VERSION`. -/
def SchemaMigration.CURRENT_VERSION : Nat := 1

/-- Model of `schema_migration.SchemaMigration.migrate`: if the record is at the
current version it is returned as is; otherwise control falls through
the commented-out upgrade chain to the final `return data`. -/
def SchemaMigration.migrate (data : RawRecord) : RawRecord :=
  let version := data.version.getD 1
  if version == SchemaMigration.CURRENT_VERSION then data
  else data

/-- Model of `schema_migration.SchemaMigration.validate_version` (defined in the
source but never called by `migrate`). -/
def SchemaMigration.validate_version (version : Nat) : Bool :=
  1 ≤ version && version ≤ SchemaMigration.CURRENT_VERSION

/-- Errors surfaced by `FileRepository.load_data`: the too-small
`ValueError`, the re-raised `InvalidTag`, and JSON-decode /
`DataModel.from_dict` errors that propagate uncaught. -/
inductive LoadErr
  | valueError (msg : String)
  | invalidTag
  | decodeError (msg : String)
deriving DecidableEq

/-- Environment of a `load_data` call: the AEAD model parameters plus
oracles for `json.loads` (`decode`) and `DataModel.from_dict`
(`fromDict`), which reconstruct the typed model from plaintext bytes. -/
structure StoreEnv where
  prf : List Nat → List Nat → Nat → Nat
  mac : List Nat → List Nat → List Nat → List Nat → List Nat
  decode : List Nat → Except String RawRecord
  fromDict : RawRecord → Except String DataModel

/-- Model of `FileRepository.load_data`.  `file` is the content of `data.bin`
(`none` when the file does not exist, in which case a fresh default
model is created and persisted).  On any error the in-memory
`_data_model` keeps its previous value (`None` for a freshly
constructed repository); the corner where `from_dict` has already
assigned the model and the subsequent `max()` over an empty truthy-id
generator raises is modelled as the same error without the partial
assignment. -/
def load_data (se : StoreEnv) (key : List Nat) (file : Option (List Nat))
    (st : RepoState) : Except LoadErr RepoState :=
  match file with
  | none =>
    Except.ok { st with dataModel := some { version := 1, users := [], config := {} } }
  | some bytes =>
    if bytes.length < 28 then
      Except.error (LoadErr.valueError ("data.bin 文件格式错误：文件太小"))
    else
      let iv := bytes.take 12
      let tag := bytes.drop (bytes.length - 16)
      let ciphertext := (bytes.drop 12).take (bytes.length - 28)
      match decrypt_aes_gcm se.prf se.mac key iv ciphertext tag [] with
      | Except.error CryptoErr.invalidTag => Except.error LoadErr.invalidTag
      | Except.error (CryptoErr.valueError m) => Except.error (LoadErr.valueError m)
      | Except.ok plaintext =>
        match se.decode plaintext with
        | Except.error m => Except.error (LoadErr.decodeError m)
        | Except.ok raw =>
          match se.fromDict (SchemaMigration.migrate raw) with
          | Except.error m => Except.error (LoadErr.decodeError m)
          | Except.ok m =>
            if m.users.isEmpty then
              Except.ok { st with dataModel := some m }
            else
              let ids := m.users.filterMap
                (fun u => u.id.bind (fun i => if i == 0 then none else some i))
              match ids.max? with
              | none => Except.error (LoadErr.valueError ("max() arg is an empty sequence"))
              | some mx => Except.ok { dataModel := some m, nextUserId := mx + 1 }

/-- One repository mutation, for reasoning about id assignment across
a process lifetime: a `save_user` insert or a `delete_user`. -/
inductive RepoOp
  | insert (u : User)
  | remove (name : String)

/-- Apply one operation; failures (duplicate username, missing user,
uninitialised model) leave the state unchanged.  The second component
is the id freshly issued by this operation, if any. -/
def applyOp (st : RepoState) : RepoOp → RepoState × Option Nat
  | RepoOp.insert u =>
    match save_user st u with
    | Except.ok (st2, _, issued) => (st2, issued)
    | Except.error _ => (st, none)
  | RepoOp.remove name =>
    match delete_user st name with
    | Except.ok st2 => (st2, none)
    | Except.error _ => (st, none)

/-- The ids issued by the store along a sequence of operations. -/
def runIssued (st : RepoState) : List RepoOp → List Nat
  | [] => []
  | op :: rest =>
    match applyOp st op with
    | (st2, some j) => j :: runIssued st2 rest
    | (st2, none) => runIssued st2 rest

/-- Decidable form of the id invariant of `FileRepository`: every id
present in the model is strictly below `_next_user_id`. -/
def idInvB (st : RepoState) : Bool :=
  match st.dataModel with
  | none => true
  | some m => m.users.all (fun u =>
      match u.id with
      | none => true
      | some i => i < st.nextUserId)

/-- State `st` with `force_mfa` set to `b` (used to state that an operation
ignores the global MFA policy). -/
def setForceMfa (st : RepoState) (b : Bool) : RepoState :=
  { st with dataModel :=
      st.dataModel.map (fun m => { m with config := { m.config with force_mfa := b } }) }

deriving instance DecidableEq for Except

/-- Demonstration key-derivation function for concrete test states
(deterministic, injective enough for the examples used here). -/
def kdfDemo : String → String → String := fun p s => p ++ s

/-- Concrete user "carol" with a password but no enrolled face. -/
def carolNoFace : User :=
  { username := "carol", salt := "s1", password_hash := "pw123456s1" }

/-- Concrete user "carol" with face enrolled (a Face++ template). -/
def carolFace : User :=
  { carolNoFace with
      face_enabled := true
      face_embedding := some ["FACEPP_IMAGE", "ab"] }

/-- Demonstration environment: everything available, capture succeeds,
the Face++ compare call returns confidence 80. -/
def envDemo : Env :=
  { kdf := kdfDemo, newSalt := "ns", cv2Available := true, faceppAvailable := true,
    capture := Except.ok (["FACEPP_IMAGE", "cd"]), compare := Except.ok (80 : ℚ) }

/-- Environment in which the Face++ compare call raises a service error. -/
def envCompareErr : Env :=
  { envDemo with compare := Except.error ("service down") }

/-- Environment in which the camera capture raises. -/
def envCaptureErr : Env :=
  { envDemo with capture := Except.error ("camera down") }

/-- Loaded store holding only `carolNoFace`, `force_mfa` on. -/
def stNoFace : RepoState :=
  { dataModel := some
      { users := [carolNoFace],
        config := { force_mfa := true, face_threshold := 3/10 } },
    nextUserId := 2 }

/-- Loaded store holding only `carolFace`, `force_mfa` on, threshold 0.3. -/
def stFace : RepoState :=
  { dataModel := some
      { users := [carolFace],
        config := { force_mfa := true, face_threshold := 3/10 } },
    nextUserId := 2 }

/-- Loaded store holding only `carolFace` with `face_threshold = 1.0`,
the top of the valid range `[0,1]`. -/
def stFaceThr1 : RepoState :=
  { dataModel := some
      { users := [carolFace],
        config := { force_mfa := true, face_threshold := 1 } },
    nextUserId := 2 }

/-- Freshly constructed repository (no model loaded). -/
def stEmpty : RepoState := {}

/-- Concrete store environment whose AEAD tag function is constant. -/
def seDemo : StoreEnv :=
  { prf := fun _ _ _ => 0, mac := fun _ _ _ _ => List.replicate 16 0,
    decode := fun _ => Except.error ("invalid json"),
    fromDict := fun _ => Except.ok {} }

/-- A 28-byte store file whose tag bytes do not match `seDemo`'s tag
function: authenticated decryption of it fails. -/
def tamperedFile : List Nat := List.replicate 12 0 ++ List.replicate 16 1

/-- Demonstration keystream function for the AEAD model. -/
def prfDemo : List Nat → List Nat → Nat → Nat := fun _ _ _ => 5

/-- Demonstration tag function for the AEAD model (16 bytes always). -/
def macDemo : List Nat → List Nat → List Nat → List Nat → List Nat :=
  fun _ _ _ _ => List.replicate 16 0

/-- Insert dave, delete dave, insert a new dave (the C7 scenario). -/
def daveOps : List RepoOp :=
  [RepoOp.insert { username := "dave", salt := "s2", password_hash := "h2" },
   RepoOp.remove ("dave"),
   RepoOp.insert { username := "dave", salt := "s3", password_hash := "h3" }]

theorem ctrXor_involution (ks : Nat → Nat) : ∀ (i : Nat) (l : List Nat),
    ctrXor ks i (ctrXor ks i l) = l := by
  intro i l
  induction l generalizing i with
  | nil => rfl
  | cons b bs ih => simp [ctrXor, Nat.xor_cancel_right, ih]

theorem pyStripList_eq_rdrop (l : List Char) :
    pyStripList l = List.rdropWhile Char.isWhitespace (l.dropWhile Char.isWhitespace) := by
  rfl

theorem dropWhile_head_false (p : Char → Bool) (l : List Char) :
    ∀ c cs, l.dropWhile p = c :: cs → p c = false := by
  induction l with
  | nil => intro c cs h; simp [List.dropWhile] at h
  | cons a as ih =>
    intro c cs h
    rw [List.dropWhile_cons] at h
    by_cases hpa : p a = true
    · rw [if_pos hpa] at h
      exact ih c cs h
    · rw [if_neg hpa] at h
      rw [List.cons.injEq] at h
      rw [← h.1]
      simpa using hpa

theorem dropWhile_fix_of_head_false (p : Char → Bool) (l : List Char)
    (h : ∀ c cs, l = c :: cs → p c = false) : l.dropWhile p = l := by
  cases l with
  | nil => rfl
  | cons c cs =>
    rw [List.dropWhile_cons, h c cs rfl]
    simp

theorem pyStripList_idem (l : List Char) :
    pyStripList (pyStripList l) = pyStripList l := by
  rw [pyStripList_eq_rdrop, pyStripList_eq_rdrop]
  have hdB : List.dropWhile Char.isWhitespace
      (List.rdropWhile Char.isWhitespace (List.dropWhile Char.isWhitespace l)) =
      List.rdropWhile Char.isWhitespace (List.dropWhile Char.isWhitespace l) := by
    apply dropWhile_fix_of_head_false
    intro c cs hB
    obtain ⟨t, ht⟩ := List.rdropWhile_prefix Char.isWhitespace (List.dropWhile Char.isWhitespace l)
    rw [hB] at ht
    exact dropWhile_head_false Char.isWhitespace l c (cs ++ t) ht.symm
  rw [hdB]
  exact List.rdropWhile_idempotent _ _

theorem pyStrip_idem (s : String) : pyStrip (pyStrip s) = pyStrip s := by
  simp [pyStrip, String.toList, pyStripList_idem]

theorem authenticate_password_only_no_faceCapture (env : Env) (st : RepoState)
    (u p : String) : Event.faceCapture ∉ (authenticate_password_only env st u p).2 := by
  unfold authenticate_password_only
  by_cases h : (u == "" || p == "") = true
  · simp [h]
  · simp only [h]
    cases hfind : get_user_by_username st (pyStrip u) with
    | none => simp
    | some user =>
      by_cases hk : (env.kdf p user.salt != user.password_hash) = true
      · simp [hk]
      · simp [hk]

theorem get_user_setForceMfa (st : RepoState) (b : Bool) (u : String) :
    get_user_by_username (setForceMfa st b) u = get_user_by_username st u := by
  unfold get_user_by_username setForceMfa
  cases st.dataModel <;> simp

theorem face_threshold_setForceMfa (st : RepoState) (b : Bool) :
    (get_system_config (setForceMfa st b)).face_threshold =
      (get_system_config st).face_threshold := by
  unfold get_system_config setForceMfa
  cases st.dataModel <;> simp

theorem save_user_spec (st : RepoState) (u : User) (st2 : RepoState)
    (stored : User) (issued : Option Nat)
    (h : save_user st u = Except.ok (st2, stored, issued)) :
    (issued = none ∧ st2.nextUserId = st.nextUserId) ∨
    (issued = some st.nextUserId ∧ st2.nextUserId = st.nextUserId + 1) := by
  unfold save_user at h
  cases hdm : st.dataModel with
  | none => rw [hdm] at h; simp at h
  | some m =>
    rw [hdm] at h
    simp only [] at h
    by_cases hdup : (m.users.find? (fun x => x.username == u.username)).isSome = true
    · rw [if_pos hdup] at h; simp at h
    · rw [if_neg hdup] at h
      cases hid : u.id with
      | none =>
        rw [hid] at h
        simp only [Except.ok.injEq, Prod.mk.injEq] at h
        right
        refine ⟨h.2.2.symm, ?_⟩
        rw [← h.1]
      | some k =>
        rw [hid] at h
        simp only [Except.ok.injEq, Prod.mk.injEq] at h
        left
        refine ⟨h.2.2.symm, ?_⟩
        rw [← h.1]

theorem delete_user_next (st : RepoState) (name : String) (st2 : RepoState)
    (h : delete_user st name = Except.ok st2) : st2.nextUserId = st.nextUserId := by
  unfold delete_user at h
  cases hdm : st.dataModel with
  | none => rw [hdm] at h; simp at h
  | some m =>
    rw [hdm] at h
    simp only [] at h
    cases hrm : removeFirstUser m.users name with
    | none => rw [hrm] at h; simp at h
    | some l =>
      rw [hrm] at h
      simp only [Except.ok.injEq] at h
      rw [← h]

theorem applyOp_next_mono (st : RepoState) (op : RepoOp) :
    st.nextUserId ≤ (applyOp st op).1.nextUserId := by
  cases op with
  | insert u =>
    simp only [applyOp]
    cases hsv : save_user st u with
    | error e => simp
    | ok res =>
      obtain ⟨st2, stored, issued⟩ := res
      rcases save_user_spec st u st2 stored issued hsv with ⟨h1, h2⟩ | ⟨h1, h2⟩ <;> simp [h2]
  | remove name =>
    simp only [applyOp]
    cases hdel : delete_user st name with
    | error e => simp
    | ok st2 => simp [delete_user_next st name st2 hdel]

theorem applyOp_issued_eq (st : RepoState) (op : RepoOp) (j : Nat)
    (h : (applyOp st op).2 = some j) :
    j = st.nextUserId ∧ (applyOp st op).1.nextUserId = j + 1 := by
  cases op with
  | insert u =>
    simp only [applyOp] at h ⊢
    cases hsv : save_user st u with
    | error e => rw [hsv] at h; simp at h
    | ok res =>
      obtain ⟨st2, stored, issued⟩ := res
      rw [hsv] at h
      simp only [] at h ⊢
      rcases save_user_spec st u st2 stored issued hsv with ⟨h1, h2⟩ | ⟨h1, h2⟩
      · rw [h1] at h; simp at h
      · rw [h1] at h
        simp only [Option.some.injEq] at h
        subst h
        exact ⟨rfl, h2⟩
  | remove name =>
    simp only [applyOp] at h
    cases hdel : delete_user st name with
    | error e => rw [hdel] at h; simp at h
    | ok st2 => rw [hdel] at h; simp at h

theorem runIssued_lb : ∀ (ops : List RepoOp) (st : RepoState) (j : Nat),
    j ∈ runIssued st ops → st.nextUserId ≤ j := by
  intro ops
  induction ops with
  | nil => intro st j h; simp [runIssued] at h
  | cons op rest ih =>
    intro st j h
    unfold runIssued at h
    cases hap : applyOp st op with
    | mk st2 issued =>
      rw [hap] at h
      have hmono := applyOp_next_mono st op
      rw [hap] at hmono
      cases issued with
      | some j0 =>
        simp only [List.mem_cons] at h
        have hiss := applyOp_issued_eq st op j0 (by rw [hap])
        rw [hap] at hiss
        rcases h with h | h
        · omega
        · have h2 := ih st2 j h
          simp at hiss hmono
          omega
      | none =>
        have h2 := ih st2 j h
        simp at hmono
        omega

theorem runIssued_chain : ∀ (ops : List RepoOp) (st : RepoState),
    List.Chain' (fun a b => a < b) (runIssued st ops) := by
  intro ops
  induction ops with
  | nil => intro st; simp [runIssued]
  | cons op rest ih =>
    intro st
    unfold runIssued
    cases hap : applyOp st op with
    | mk st2 issued =>
      cases issued with
      | none => exact ih st2
      | some j0 =>
        rw [List.chain'_cons']
        refine ⟨?_, ih st2⟩
        intro b hb
        have hmem : b ∈ runIssued st2 rest := by
          cases hh : runIssued st2 rest with
          | nil => rw [hh] at hb; simp at hb
          | cons x xs =>
            rw [hh] at hb
            simp at hb
            subst hb
            exact List.mem_cons_self x xs
        have hlb := runIssued_lb rest st2 b hmem
        have hiss := applyOp_issued_eq st op j0 (by rw [hap])
        rw [hap] at hiss
        simp only [] at hiss
        omega

/-- C1 counterexample.  With `force_mfa` on, a correct password and no
enrolled face, `authenticate_user` does terminate in the
MFA-required-but-not-enrolled failure — but an audit-log SUCCESS event
IS written for the attempt, by the password-check step
(`authenticate_password_only` calls `log_login_success` before the MFA
policy is consulted).  This refutes the claim's conjunct that no
SUCCESS event is ever written for such an attempt. -/
theorem c1_counterexample :
    (get_system_config stNoFace).force_mfa = true ∧
    get_user_by_username stNoFace ("carol") = some carolNoFace ∧
    carolNoFace.face_embedding = none ∧
    (authenticate_password_only envDemo stNoFace ("carol") ("pw123456")).1.success = true ∧
    (authenticate_user envDemo stNoFace ("carol") ("pw123456")).1.success = false ∧
    (authenticate_user envDemo stNoFace ("carol") ("pw123456")).1.message =
      "系统要求双因素认证，但用户未录入人脸" ∧
    Event.log ("carol") LogKind.SUCCESS ("登录成功") ∈
      (authenticate_user envDemo stNoFace ("carol") ("pw123456")).2 := by
  decide

/-- C1 (amended).  For every login attempt with a correct password,
`force_mfa` on, and no enrolled face template, authentication
terminates in failure with the MfaRequiredButNotEnrolled message, and
the attempt's audit trail is exactly one SUCCESS event, written by the
password-check step (so a SUCCESS event IS written, and no MFA_SUCCESS
or failure event follows). -/
theorem c1_mfa_required_not_enrolled
    (env : Env) (st : RepoState) (u p : String) (user : User)
    (hu : u ≠ "") (hp : p ≠ "")
    (hfind : get_user_by_username st (pyStrip u) = some user)
    (hkdf : env.kdf p user.salt = user.password_hash)
    (hmfa : (get_system_config st).force_mfa = true)
    (hface : (user.face_enabled && faceTruthy user.face_embedding) = false) :
    authenticate_user env st u p =
      ({ success := false, message := "系统要求双因素认证，但用户未录入人脸" },
       [Event.log (pyStrip u) LogKind.SUCCESS ("登录成功")]) := by
  unfold authenticate_user authenticate_password_only
  simp [hu, hp, hfind, hkdf, hmfa, hface]

/-- C1 witness: the amended theorem applied at the concrete carol state. -/
theorem c1_witness :
    authenticate_user envDemo stNoFace ("carol") ("pw123456") =
      ({ success := false, message := "系统要求双因素认证，但用户未录入人脸" },
       [Event.log (pyStrip ("carol")) LogKind.SUCCESS ("登录成功")]) :=
  c1_mfa_required_not_enrolled envDemo stNoFace ("carol") ("pw123456") carolNoFace
    (by decide) (by decide) (by decide) (by decide) (by decide) (by decide)

/-- C2.  A login attempt with an unregistered username and one with a
registered username but a wrong password return the same caller-visible
failure message (and both fail): `WrongCredentials` and `UserNotFound`
render identical text. -/
theorem c2_uniform_failure_message
    (env : Env) (st : RepoState) (u1 p1 u2 p2 : String) (user : User)
    (hu1 : u1 ≠ "") (hp1 : p1 ≠ "")
    (hnone : get_user_by_username st (pyStrip u1) = none)
    (hu2 : u2 ≠ "") (hp2 : p2 ≠ "")
    (hsome : get_user_by_username st (pyStrip u2) = some user)
    (hwrong : env.kdf p2 user.salt ≠ user.password_hash) :
    (authenticate_password_only env st u1 p1).1.message =
      (authenticate_password_only env st u2 p2).1.message ∧
    (authenticate_password_only env st u1 p1).1.success = false ∧
    (authenticate_password_only env st u2 p2).1.success = false := by
  unfold authenticate_password_only
  simp [hu1, hp1, hu2, hp2, hnone, hsome, hwrong]

/-- C2 witness: unknown "bob" versus registered "carol" with a wrong
password, in the concrete store. -/
theorem c2_witness :
    (authenticate_password_only envDemo stNoFace ("bob") ("whatever")).1.message =
      (authenticate_password_only envDemo stNoFace ("carol") ("wrongpass")).1.message ∧
    (authenticate_password_only envDemo stNoFace ("bob") ("whatever")).1.success = false ∧
    (authenticate_password_only envDemo stNoFace ("carol") ("wrongpass")).1.success = false :=
  c2_uniform_failure_message envDemo stNoFace ("bob") ("whatever") ("carol") ("wrongpass")
    carolNoFace (by decide) (by decide) (by decide) (by decide) (by decide) (by decide)
    (by decide)

/-- C3.  Loading an existing store file whose recomputed authentication
tag does not match the stored tag surfaces the re-raised `InvalidTag`
(IntegrityError); no `DataModel` is constructed, and on a fresh
repository (no model loaded) no user list is available afterwards. -/
theorem c3_tampered_store_integrity_error
    (se : StoreEnv) (key bytes : List Nat) (st : RepoState)
    (hkey : key.length = 32)
    (hlen : 28 ≤ bytes.length)
    (htag : se.mac key (bytes.take 12) ((bytes.drop 12).take (bytes.length - 28)) [] ≠
      bytes.drop (bytes.length - 16))
    (hdm : st.dataModel = none) :
    load_data se key (some bytes) st = Except.error LoadErr.invalidTag ∧
    get_all_users st = [] := by
  have hiv : (bytes.take 12).length = 12 := by
    rw [List.length_take]
    omega
  have htg : (bytes.drop (bytes.length - 16)).length = 16 := by
    rw [List.length_drop]
    omega
  have hdec : decrypt_aes_gcm se.prf se.mac key (bytes.take 12)
      ((bytes.drop 12).take (bytes.length - 28)) (bytes.drop (bytes.length - 16)) [] =
      Except.error CryptoErr.invalidTag := by
    unfold decrypt_aes_gcm
    rw [if_neg (by simp [hkey]), if_neg (by simp [hiv]), if_neg (by simp [htg]),
      if_neg htag]
  constructor
  · have h28 : ¬ bytes.length < 28 := by omega
    simp only [load_data]
    rw [if_neg h28, hdec]
  · simp [get_all_users, hdm]

/-- C3 witness: a 28-byte file whose tag bytes mismatch `seDemo`'s tag. -/
theorem c3_witness :
    load_data seDemo (List.replicate 32 0) (some tamperedFile) stEmpty =
      Except.error LoadErr.invalidTag ∧
    get_all_users stEmpty = [] :=
  c3_tampered_store_integrity_error seDemo (List.replicate 32 0) tamperedFile stEmpty
    (by decide) (by decide) (by decide) (by rfl)

/-- C4.  Decrypting the `(nonce, ciphertext, tag)` triple produced by
`encrypt_aes_gcm` under the same 32-byte key (and same aad) returns
exactly the original plaintext, for every keystream and 16-byte tag
function of the underlying AEAD. -/
theorem c4_seal_open_roundtrip
    (prf : List Nat → List Nat → Nat → Nat)
    (mac : List Nat → List Nat → List Nat → List Nat → List Nat)
    (key iv plaintext aad nonce ct tg : List Nat)
    (hkey : key.length = 32) (hiv : iv.length = 12)
    (hmac : ∀ k i c a, (mac k i c a).length = 16)
    (henc : encrypt_aes_gcm prf mac key iv plaintext aad = Except.ok (nonce, ct, tg)) :
    decrypt_aes_gcm prf mac key nonce ct tg aad = Except.ok plaintext := by
  unfold encrypt_aes_gcm at henc
  rw [if_neg (by simp [hkey])] at henc
  simp only [Except.ok.injEq, Prod.mk.injEq] at henc
  obtain ⟨h1, h2, h3⟩ := henc
  subst h1; subst h2; subst h3
  unfold decrypt_aes_gcm
  rw [if_neg (by simp [hkey]), if_neg (by simp [hiv]), if_neg (by simp [hmac]),
    if_pos rfl, ctrXor_involution]

/-- C4 witness: round-trip at plaintext `[10, 20, 30]` under the
demonstration keystream and tag functions (`xor` with 5 gives
ciphertext `[15, 17, 27]`). -/
theorem c4_witness :
    decrypt_aes_gcm prfDemo macDemo (List.replicate 32 0) (List.replicate 12 0)
      [15, 17, 27] (List.replicate 16 0) [] = Except.ok [10, 20, 30] :=
  c4_seal_open_roundtrip prfDemo macDemo (List.replicate 32 0) (List.replicate 12 0)
    [10, 20, 30] [] (List.replicate 12 0) [15, 17, 27] (List.replicate 16 0)
    (by decide) (by decide) (fun _ _ _ _ => by simp [macDemo]) (by decide)

/-- C5 counterexample.  A record at version 2, strictly greater than
`CURRENT_VERSION = 1`, is returned unchanged by `migrate` — no fatal
error is signalled (the function has no error channel at all and every
branch returns the input). -/
theorem c5_counterexample :
    SchemaMigration.CURRENT_VERSION < 2 ∧
    SchemaMigration.migrate { version := some 2, fields := [] } =
      { version := some 2, fields := [] } := by
  decide

/-- C5 (amended).  `SchemaMigration.migrate` returns every record
unchanged, whatever its version: records already at the current version
are returned unchanged (that half of the claim holds), but records at
a future version are returned unchanged as well instead of being
rejected. -/
theorem c5_migrate_identity (r : RawRecord) : SchemaMigration.migrate r = r := by
  unfold SchemaMigration.migrate
  by_cases h : (r.version.getD 1 == SchemaMigration.CURRENT_VERSION) = true
  · simp [h]
  · simp [h]

/-- C6.  Registering a username that already exists in the store fails
with the duplicate-username message, the state is unchanged, and the
store still contains exactly one user with that username. -/
theorem c6_duplicate_username_rejected
    (env : Env) (st : RepoState) (u p : String) (w : User)
    (hu : u ≠ "") (hus : pyStrip u ≠ "")
    (hp : ¬ p.length < 6)
    (hfound : get_user_by_username st (pyStrip u) = some w)
    (hcount : ((get_all_users st).countP (fun x => x.username == pyStrip u)) = 1) :
    register_user env st u p =
      (({ success := false,
          message := "用户名 \x27" ++ pyStrip u ++ "\x27 已存在" }, []), st) ∧
    ((get_all_users (register_user env st u p).2).countP
        (fun x => x.username == pyStrip u)) = 1 := by
  unfold register_user
  simp [hu, hus, hp, hfound, hcount]

/-- C6 witness: registering "carol" a second time in the concrete store. -/
theorem c6_witness :
    register_user envDemo stNoFace ("carol") ("pw999999") =
      (({ success := false,
          message := "用户名 \x27" ++ pyStrip ("carol") ++ "\x27 已存在" }, []), stNoFace) ∧
    ((get_all_users (register_user envDemo stNoFace ("carol") ("pw999999")).2).countP
        (fun x => x.username == pyStrip ("carol"))) = 1 :=
  c6_duplicate_username_rejected envDemo stNoFace ("carol") ("pw999999") carolNoFace
    (by decide) (by decide) (by decide) (by decide) (by decide)

/-- C7.  (a) Any state produced by a successful `load_data` satisfies
the id invariant (`_next_user_id` exceeds every stored id, matching
`next = 1 + max` at load).  (b) From any state satisfying the
invariant, along any sequence of inserts and deletes the ids issued by
the store form a strictly increasing list — so a freshly inserted user
(including one re-inserted after a delete of the same username) gets
an id strictly greater than every previously issued id, and greater
than every id present at the start; ids are never reused. -/
theorem c7_issued_ids_strictly_increase :
    (∀ (se : StoreEnv) (key : List Nat) (file : Option (List Nat)) (st st2 : RepoState),
      load_data se key file st = Except.ok st2 → idInvB st2 = true) ∧
    (∀ (st : RepoState) (ops : List RepoOp),
      idInvB st = true →
      List.Chain' (fun a b => a < b) (runIssued st ops) ∧
      (∀ j ∈ runIssued st ops, ∀ m : DataModel, st.dataModel = some m →
        ∀ u ∈ m.users, ∀ i : Nat, u.id = some i → i < j)) := by
  constructor
  · intro se key file st st2 h
    cases file with
    | none =>
      simp only [load_data] at h
      simp only [Except.ok.injEq] at h
      subst h
      simp [idInvB]
    | some bytes =>
      simp only [load_data] at h
      by_cases h28 : bytes.length < 28
      · rw [if_pos h28] at h; simp at h
      · rw [if_neg h28] at h
        cases hdec : decrypt_aes_gcm se.prf se.mac key (bytes.take 12)
            ((bytes.drop 12).take (bytes.length - 28)) (bytes.drop (bytes.length - 16)) [] with
        | error e =>
          rw [hdec] at h
          cases e <;> simp at h
        | ok plaintext =>
          rw [hdec] at h
          simp only [] at h
          cases hdc : se.decode plaintext with
          | error m2 => rw [hdc] at h; simp at h
          | ok raw =>
            rw [hdc] at h
            simp only [] at h
            cases hfd : se.fromDict (SchemaMigration.migrate raw) with
            | error m2 => rw [hfd] at h; simp at h
            | ok m =>
              rw [hfd] at h
              simp only [] at h
              by_cases hemp : m.users.isEmpty = true
              · rw [if_pos hemp] at h
                simp only [Except.ok.injEq] at h
                subst h
                have husers : m.users = [] := by
                  rwa [List.isEmpty_iff] at hemp
                simp [idInvB, husers]
              · rw [if_neg hemp] at h
                cases hmax : (m.users.filterMap
                    (fun u => u.id.bind (fun i => if i == 0 then none else some i))).max? with
                | none => rw [hmax] at h; simp at h
                | some mx =>
                  rw [hmax] at h
                  simp only [Except.ok.injEq] at h
                  subst h
                  simp only [idInvB]
                  rw [List.all_eq_true]
                  intro u hu
                  cases hid : u.id with
                  | none => simp
                  | some i =>
                    simp only [decide_eq_true_eq]
                    by_cases hz : i = 0
                    · subst hz; omega
                    · have hmem : i ∈ m.users.filterMap
                          (fun u => u.id.bind (fun i => if i == 0 then none else some i)) := by
                        rw [List.mem_filterMap]
                        refine ⟨u, hu, ?_⟩
                        simp [hid, hz]
                      have hle := (List.max?_eq_some_iff'.mp hmax).2 i hmem
                      omega
  · intro st ops hinv
    refine ⟨runIssued_chain ops st, ?_⟩
    intro j hj m hdm u hu i hid
    have hlb := runIssued_lb ops st j hj
    have hlt : i < st.nextUserId := by
      simp only [idInvB, hdm] at hinv
      rw [List.all_eq_true] at hinv
      have hx := hinv u hu
      rw [hid] at hx
      simpa using hx
    omega

/-- C7 witness: insert dave, delete dave, insert dave again starting
from the concrete loaded store — the issued ids strictly increase. -/
theorem c7_witness :
    List.Chain' (fun a b => a < b) (runIssued stNoFace daveOps) :=
  (c7_issued_ids_strictly_increase.2 stNoFace daveOps (by decide)).1

/-- C8 counterexample.  For face-enabled carol, in an environment where
any face capture raises (so a fresh face check would fail),
`change_password` nevertheless succeeds with only the old password, and
no face capture is ever invoked during it — refuting the claim that the
password-change operation performs a fresh face check and fails when
that check fails. -/
theorem c8_counterexample :
    carolFace.face_enabled = true ∧
    capture_and_extract_face envCaptureErr = Except.error ("camera down") ∧
    (change_password envCaptureErr stFace ("carol") ("pw123456") ("newpw789")).1.1.success
      = true ∧
    Event.faceCapture ∉
      (change_password envCaptureErr stFace ("carol") ("pw123456") ("newpw789")).1.2 := by
  decide

/-- C8 (amended).  The core `change_password` operation itself performs
no face check for any user.  The fresh face check lives in the separate
`verify_user_face_for_password_change` operation (which the UI invokes
before every password change): that operation ignores the global
`force_mfa` flag entirely, and for a user without face enabled it fails
outright with "face not enabled" instead of skipping the check. -/
theorem c8_face_check_location :
    (∀ (env : Env) (st : RepoState) (u o n : String),
      Event.faceCapture ∉ (change_password env st u o n).1.2) ∧
    (∀ (env : Env) (st : RepoState) (b : Bool) (u : String),
      verify_user_face_for_password_change env (setForceMfa st b) u =
        verify_user_face_for_password_change env st u) ∧
    (∀ (env : Env) (st : RepoState) (u : String) (user : User),
      get_user_by_username st u = some user →
      (user.face_enabled && faceTruthy user.face_embedding) = false →
      verify_user_face_for_password_change env st u =
        ({ success := false, message := "用户未启用人脸识别功能" }, [])) := by
  refine ⟨?_, ?_, ?_⟩
  · intro env st u o n
    have hno := authenticate_password_only_no_faceCapture env st (pyStrip u) o
    simp only [change_password]
    split
    · simp
    · split
      · simp
      · split
        · simp
        · split
          · simpa using hno
          · split
            · simpa using hno
            · split
              · simp [hno]
              · simpa using hno
  · intro env st b u
    unfold verify_user_face_for_password_change
    rw [get_user_setForceMfa, face_threshold_setForceMfa]
  · intro env st u user hfind hface
    unfold verify_user_face_for_password_change
    simp [hfind, hface]

/-- C8 witness: the amended theorem applied to carol without face
enabled — the standalone verification fails rather than skipping. -/
theorem c8_witness :
    verify_user_face_for_password_change envDemo stNoFace ("carol") =
      ({ success := false, message := "用户未启用人脸识别功能" }, []) :=
  c8_face_check_location.2.2 envDemo stNoFace ("carol") carolNoFace (by decide) (by decide)

/-- C9 counterexample.  With `face_threshold = 1.0` — inside the valid
range `[0,1]` — and the Face++ compare call raising a service error,
two-factor authentication SUCCEEDS: the error is converted to distance
`1.0`, and `1.0 ≤ 1.0` passes.  This refutes both conjuncts of the
claim: the outcome is not a distinct FaceUnavailable failure, and a
service error can cause the face factor to succeed. -/
theorem c9_counterexample :
    (0 : ℚ) ≤ (get_system_config stFaceThr1).face_threshold ∧
    (get_system_config stFaceThr1).face_threshold ≤ 1 ∧
    envCompareErr.compare = Except.error ("service down") ∧
    (authenticate_user envCompareErr stFaceThr1 ("carol") ("pw123456")).1.success = true := by
  decide

/-- C9 (amended).  When the Face++ compare service raises,
`compute_distance` silently converts the error to the maximal distance
`1.0` (never a distinct FaceUnavailable outcome); the attempt then
passes exactly when `1.0 ≤ face_threshold` (i.e. fails as FaceMismatch
for thresholds below 1 and succeeds at threshold 1.0), and in the
failing case a FAIL_FACE_MISMATCH audit event is written. -/
theorem c9_service_error_max_distance
    (env : Env) (st : RepoState) (u p h1 h2 e : String) (user : User)
    (hu : u ≠ "") (hp : p ≠ "")
    (hfind : get_user_by_username st (pyStrip u) = some user)
    (hkdf : env.kdf p user.salt = user.password_hash)
    (hmfa : (get_system_config st).force_mfa = true)
    (hfe : user.face_enabled = true)
    (hemb : user.face_embedding = some ["FACEPP_IMAGE", h1])
    (hcv : env.cv2Available = true) (hfp : env.faceppAvailable = true)
    (hcap : env.capture = Except.ok (["FACEPP_IMAGE", h2]))
    (hcmp : env.compare = Except.error e) :
    compute_distance env (["FACEPP_IMAGE", h1]) (["FACEPP_IMAGE", h2]) = Except.ok 1 ∧
    (authenticate_user env st u p).1.success =
      decide ((1 : ℚ) ≤ (get_system_config st).face_threshold) ∧
    (¬ (1 : ℚ) ≤ (get_system_config st).face_threshold →
      Event.log u LogKind.FAIL_FACE_MISMATCH ("人脸比对失败") ∈
        (authenticate_user env st u p).2) := by
  have hcd : compute_distance env (["FACEPP_IMAGE", h1]) (["FACEPP_IMAGE", h2]) =
      Except.ok 1 := by
    unfold compute_distance
    simp [hfp, hcmp]
  refine ⟨hcd, ?_, ?_⟩
  · unfold authenticate_user authenticate_password_only capture_and_extract_face
      is_face_recognition_available
    simp [hu, hp, hfind, hkdf, hmfa, hfe, hemb, hcv, hfp, hcap, hcd, faceTruthy]
    by_cases hth : (1 : ℚ) ≤ (get_system_config st).face_threshold
    · simp [hth]
    · simp [hth]
  · intro hth
    unfold authenticate_user authenticate_password_only capture_and_extract_face
      is_face_recognition_available
    simp [hu, hp, hfind, hkdf, hmfa, hfe, hemb, hcv, hfp, hcap, hcd, faceTruthy, hth]

/-- C9 witness: the amended theorem at the concrete carol state with
threshold 0.3 — the service error yields distance 1, and success is
`decide (1 ≤ 3/10)`. -/
theorem c9_witness :
    compute_distance envCompareErr (["FACEPP_IMAGE", "ab"]) (["FACEPP_IMAGE", "cd"]) =
      Except.ok 1 ∧
    (authenticate_user envCompareErr stFace ("carol") ("pw123456")).1.success =
      decide ((1 : ℚ) ≤ (get_system_config stFace).face_threshold) :=
  ⟨(c9_service_error_max_distance envCompareErr stFace ("carol") ("pw123456") ("ab") ("cd")
      ("service down") carolFace (by decide) (by decide) (by decide) (by decide) (by decide)
      (by decide) (by decide) (by decide) (by decide) (by decide) (by decide)).1,
   (c9_service_error_max_distance envCompareErr stFace ("carol") ("pw123456") ("ab") ("cd")
      ("service down") carolFace (by decide) (by decide) (by decide) (by decide) (by decide)
      (by decide) (by decide) (by decide) (by decide) (by decide) (by decide)).2.1⟩

/-- C10.  (a) A successful registration appends exactly one user whose
stored username is the whitespace-stripped input and is itself fixed
under stripping (no leading/trailing whitespace).  (b) Password
authentication looks up the stripped username, so two username inputs
differing only in surrounding whitespace address the same account:
`authenticate_password_only` returns identical results for them. -/
theorem c10_username_stripped :
    (∀ (env : Env) (st : RepoState) (u p : String),
      (register_user env st u p).1.1.success = true →
      ∃ stored : User,
        get_all_users (register_user env st u p).2 = get_all_users st ++ [stored] ∧
        stored.username = pyStrip u ∧
        pyStrip stored.username = stored.username) ∧
    (∀ (env : Env) (st : RepoState) (u1 u2 p : String),
      u1 ≠ "" → u2 ≠ "" → p ≠ "" → pyStrip u1 = pyStrip u2 →
      authenticate_password_only env st u1 p = authenticate_password_only env st u2 p) := by
  constructor
  · intro env st u p hsucc
    by_cases h1 : (u == "" || pyStrip u == "") = true
    · simp [register_user, h1] at hsucc
    · by_cases h2 : p.length < 6
      · simp [register_user, h1, h2] at hsucc
      · cases hfind : get_user_by_username st (pyStrip u) with
        | some w => simp [register_user, h1, h2, hfind] at hsucc
        | none =>
          cases hdm : st.dataModel with
          | none => simp [register_user, save_user, h1, h2, hfind, hdm] at hsucc
          | some m =>
            have hfind2 : (m.users.find? (fun x => x.username == pyStrip u)).isSome
                = false := by
              unfold get_user_by_username at hfind
              rw [hdm] at hfind
              simp only [] at hfind
              rw [hfind]
              rfl
            refine ⟨{ username := pyStrip u, salt := env.newSalt,
                      password_hash := env.kdf p env.newSalt,
                      id := some st.nextUserId }, ?_, rfl, pyStrip_idem u⟩
            simp [register_user, save_user, h1, h2, hfind, hdm, hfind2, get_all_users]
  · intro env st u1 u2 p hu1 hu2 hp hstrip
    unfold authenticate_password_only
    simp only [hstrip, hu1, hu2, hp]
    simp [hu1, hu2, hp]

/-- C10 witness: " carol" and "carol " address the same account in the
concrete store. -/
theorem c10_witness :
    authenticate_password_only envDemo stNoFace (" carol") ("pw123456") =
      authenticate_password_only envDemo stNoFace ("carol ") ("pw123456") :=
  c10_username_stripped.2 envDemo stNoFace (" carol") ("carol ") ("pw123456")
    (by decide) (by decide) (by decide) (by decide)
